import Mathlib

/-!
# watchfulbutler: quote verification, LUKS keyslot allocation and escrow tokens

A shallow embedding of `client/tpm.go`, `client/luks.go` and
`client/main.go`, with theorems about `verifyQuote`,
`getFirstFreeLuksSlot`, `createLuksToken`, `getExistingLuksData` and
`getAndVerifyQuote`.

Conventions of the embedding.

* A Go slice is a `Slice`: either the nil slice or a non-nil slice with a list
  of elements. `bytes.Equal` looks at the elements only, `reflect.DeepEqual`
  and `json.Marshal` also look at nil-ness.
* A Go `error` is its message (`GoError`); the nil error is `none`.
* A Go map is the list of its entries in the order in which `range` visits
  them in the run at hand. Go does not fix that order, so two lists that are
  permutations of each other stand for the same map.
* Calls into the TPM, into `crypto/rsa`, `crypto/x509` and into the
  `cryptsetup` tool are functions supplied by an environment.
-/

namespace WatchfulButler

/-! ## Go values -/

/-- A byte. -/
abbrev Byte := Fin 256

/-- A Go error value, identified by its message. -/
abbrev GoError := String

/-- A Go slice: the nil slice, or a non-nil slice holding `elems`. -/
inductive Slice (α : Type) where
  | nil : Slice α
  | of (elems : List α) : Slice α
  deriving DecidableEq, Repr

/-- The elements of a slice; the nil slice has none. -/
def Slice.elems {α : Type} : Slice α → List α
  | .nil => []
  | .of l => l

/-- Go's `bytes.Equal`: same length and same bytes; a nil argument is
equivalent to an empty slice. -/
def bytesEqual (a b : Slice Byte) : Bool :=
  a.elems == b.elems

/-- Go's `reflect.DeepEqual` on two `[]int` values: both nil or both non-nil,
same length, and corresponding elements equal. -/
def deepEqual : Slice Int → Slice Int → Bool
  | .nil, .nil => true
  | .of a, .of b => a.length == b.length && a == b
  | _, _ => false

/-- What a Go call does: it returns a value, or it panics. -/
inductive Outcome (α : Type) where
  | ret (v : α) : Outcome α
  | panic (msg : String) : Outcome α
  deriving DecidableEq, Repr

/-! ## go-tpm and crypto types used by `client/tpm.go` -/

/-- The type `tpm2.Algorithm` (a `uint16`). -/
abbrev Algorithm := Nat

/-- The constant `tpm2.AlgSHA256`. -/
def AlgSHA256 : Algorithm := 0x000B

/-- The type `tpm2.PCRSelection`. -/
structure PCRSelection where
  Hash : Algorithm
  PCRs : Slice Int
  deriving DecidableEq, Repr

/-- The type `tpm2.QuoteInfo`, as far as `verifyQuote` reads it. -/
structure QuoteInfo where
  PCRSelection : PCRSelection
  deriving DecidableEq, Repr

/-- The type `tpm2.AttestationData`, as far as `verifyQuote` reads it.
`AttestedQuoteInfo` is a pointer in go-tpm: it is nil (`none`) when the decoded
structure is not a quote. -/
structure AttestationData where
  ExtraData : Slice Byte
  AttestedQuoteInfo : Option QuoteInfo
  deriving DecidableEq, Repr

/-- The type `rsa.PublicKey`. -/
structure PublicKey where
  N : Nat
  E : Int
  deriving DecidableEq, Repr

/-- The library functions `verifyQuote` calls, taken as given. -/
structure QuoteLib where
  /-- The SHA-256 digest of the bytes written to the hash. -/
  sha256Sum : List Byte → List Byte
  /-- The function `rsa.VerifyPKCS1v15` with hash `crypto.SHA256`, applied to
  the key, the digest and the signature; `none` is the nil error. -/
  verifyPKCS1v15 : PublicKey → List Byte → Slice Byte → Option GoError
  /-- The function `tpm2.DecodeAttestationData`. -/
  decodeAttestationData : Slice Byte → Except GoError AttestationData

/-! ## `client/tpm.go` -/

/-- The function `verifyQuote` of `client/tpm.go`. -/
def verifyQuote (lib : QuoteLib) (pub : PublicKey) (quote signature : Slice Byte)
    (pcrSelection : PCRSelection) (nonce : Slice Byte) : Outcome (Option GoError) :=
  match lib.verifyPKCS1v15 pub (lib.sha256Sum quote.elems) signature with
  | some err => .ret (some err)
  | none =>
    match lib.decodeAttestationData quote with
    | .error err => .ret (some err)
    | .ok data =>
      if !bytesEqual data.ExtraData nonce then
        .ret (some "nonce mismatch")
      else
        match data.AttestedQuoteInfo with
        | none => .panic "runtime error: invalid memory address or nil pointer dereference"
        | some info =>
          if info.PCRSelection.Hash != pcrSelection.Hash ||
              !deepEqual info.PCRSelection.PCRs pcrSelection.PCRs then
            .ret (some "PCR selection mismatch")
          else
            .ret none

/-! ## `client/luks.go`: the metadata dump and keyslot allocation -/

/-- An entry of `Luks2Dump.Keyslots`. -/
structure Keyslot where
  Typ : String
  deriving DecidableEq, Repr

/-- An entry of `Luks2Dump.Tokens`. -/
structure Token where
  Typ : String
  Context : Slice Byte
  Key : Slice Byte
  deriving DecidableEq, Repr

/-- The type `Luks2Dump`: two maps keyed by `int`, each given by its entries
in `range` order. -/
structure Luks2Dump where
  Keyslots : List (Int × Keyslot)
  Tokens : List (Int × Token)
  deriving DecidableEq, Repr

/-- The inner loop of `getFirstFreeLuksSlot`: range over the keyslot map and
stop with `found = true` at the first key equal to `i`. -/
def slotFound (i : Int) : List (Int × Keyslot) → Bool
  | [] => false
  | (slot, _) :: rest => if slot == i then true else slotFound i rest

/-- The outer loop of `getFirstFreeLuksSlot`, with `n` iterations left and
loop variable `i`. -/
def firstFreeLoop (keyslots : List (Int × Keyslot)) : Nat → Int → Int × Option GoError
  | 0, _ => (-1, some "no free LUKS slot found")
  | n + 1, i =>
    if slotFound i keyslots then firstFreeLoop keyslots n (i + 1) else (i, none)

/-- The function `getFirstFreeLuksSlot` of `client/luks.go`: `i` runs from 0
while `i < 32`. -/
def getFirstFreeLuksSlot (luksDump : Luks2Dump) : Int × Option GoError :=
  firstFreeLoop luksDump.Keyslots 32 0

/-! ## `encoding/base64` and `encoding/json`, as far as the token document needs them -/

/-- The alphabet of `base64.StdEncoding`. -/
def base64Alphabet : List Char :=
  "ABCDEFGHIJKLMNOPQRSTUVWXYZabcdefghijklmnopqrstuvwxyz0123456789+/".data

/-- The character that encodes the 6-bit value `i`. -/
def base64Char (i : Nat) : Char :=
  base64Alphabet.getD i 'A'

/-- The 6-bit value a character encodes, `none` outside the alphabet. -/
def base64Index (c : Char) : Option Nat :=
  let i := base64Alphabet.indexOf c
  if i < 64 then some i else none

/-- The byte `n mod 256`. -/
def byteOfNat (n : Nat) : Byte :=
  ⟨n % 256, Nat.mod_lt n (by decide)⟩

/-- The encoder `base64.StdEncoding.EncodeToString`: three bytes become four
characters, the last group is padded with `=`. -/
def base64Encode : List Byte → List Char
  | [] => []
  | [a] => [base64Char (a.val / 4), base64Char (a.val % 4 * 16), '=', '=']
  | [a, b] =>
    [base64Char (a.val / 4), base64Char (a.val % 4 * 16 + b.val / 16),
      base64Char (b.val % 16 * 4), '=']
  | a :: b :: c :: rest =>
    base64Char (a.val / 4) :: base64Char (a.val % 4 * 16 + b.val / 16) ::
      base64Char (b.val % 16 * 4 + c.val / 64) :: base64Char (c.val % 64) ::
      base64Encode rest

/-- The quantum loop of `base64.StdEncoding.Decode`, after line breaks have
been dropped: groups of four characters; padding is one or two `=` at the end
of the last group. -/
def base64DecodeQuanta : List Char → Option (List Byte)
  | [] => some []
  | c0 :: c1 :: c2 :: c3 :: rest =>
    if c3 = '=' then
      if rest.isEmpty then
        if c2 = '=' then
          match base64Index c0, base64Index c1 with
          | some d0, some d1 => some [byteOfNat (d0 * 4 + d1 / 16)]
          | _, _ => none
        else
          match base64Index c0, base64Index c1, base64Index c2 with
          | some d0, some d1, some d2 =>
            some [byteOfNat (d0 * 4 + d1 / 16), byteOfNat (d1 * 16 + d2 / 4)]
          | _, _, _ => none
      else none
    else
      match base64Index c0, base64Index c1, base64Index c2, base64Index c3 with
      | some d0, some d1, some d2, some d3 =>
        match base64DecodeQuanta rest with
        | some bytes =>
          some (byteOfNat (d0 * 4 + d1 / 16) :: byteOfNat (d1 * 16 + d2 / 4) ::
            byteOfNat (d2 * 64 + d3) :: bytes)
        | none => none
      | _, _, _, _ => none
  | _ => none

/-- Whether a character is neither a carriage return nor a line feed. -/
def notLineBreak (c : Char) : Bool :=
  c != '\r' && c != '\n'

/-- The decoder `base64.StdEncoding.DecodeString`: carriage returns and line
feeds are ignored. -/
def base64Decode (s : List Char) : Option (List Byte) :=
  base64DecodeQuanta (s.filter notLineBreak)

/-- A JSON document built from null, strings, arrays and objects. -/
inductive Json where
  | null : Json
  | str (s : String) : Json
  | arr (items : List Json) : Json
  | obj (fields : List (String × Json)) : Json

/-- What `json.Marshal` emits for a `[]byte`: null for the nil slice, else the
base64 text of the bytes. -/
def marshalBytes : Slice Byte → Json
  | .nil => .null
  | .of l => .str (String.mk (base64Encode l))

/-- What `json.Marshal` emits for a `[]string`. -/
def marshalStrings : Slice String → Json
  | .nil => .null
  | .of l => .arr (l.map Json.str)

/-- The map literal `token` of `createLuksToken`, as a record of its four
entries. -/
structure EscrowRecord where
  Typ : String
  keyslots : Slice String
  context : Slice Byte
  key : Slice Byte
  deriving DecidableEq, Repr

/-- The value `json.Marshal(token)` for the map of `createLuksToken`: an
object whose keys are in sorted order. -/
def marshalToken (token : EscrowRecord) : Json :=
  .obj [("context", marshalBytes token.context), ("key", marshalBytes token.key),
    ("keyslots", marshalStrings token.keyslots), ("type", .str token.Typ)]

/-- Case folding of one character as `encoding/json` does it when it compares
an object key with a field name: ASCII letters ignore case, and the Kelvin sign
and the long s fold to `k` and `s`. -/
def foldChar (c : Char) : Char :=
  if c = '\u212a' then 'k' else if c = '\u017f' then 's' else c.toLower

/-- Whether an object key names the struct field with the lower-case ASCII
JSON name `name`: an exact match or a match under case folding. -/
def keyMatches (key name : String) : Bool :=
  key == name || key.data.map foldChar == name.data

/-- Decoding a JSON value into a `string` field: a string is stored, null
leaves the field as it is, anything else is an error. -/
def unmarshalString (old : String) : Json → Except GoError String
  | .str s => .ok s
  | .null => .ok old
  | _ => .error "json: cannot unmarshal into Go struct field of type string"

/-- What `encoding/json` does with a JSON array that it decodes into a
`[]byte` field: it decodes the items into the slice that is already in the
field, so the result depends on that slice (a null item keeps the byte that is
there). The function is taken as given, from the slice in the field and the
items of the array. -/
abbrev ArrayIntoBytes := Slice Byte → List Json → Except GoError (Slice Byte)

/-- Decoding a JSON value into a `[]byte` field that holds `old`: a string is
base64 text and gives a new slice, null gives the nil slice, an array is decoded
into `old` by `arrayInto`, an object is an error. -/
def unmarshalBytes (arrayInto : ArrayIntoBytes) (old : Slice Byte) :
    Json → Except GoError (Slice Byte)
  | .str s =>
    match base64Decode s.data with
    | some bytes => .ok (.of bytes)
    | none => .error "json: illegal base64 data"
  | .null => .ok .nil
  | .arr items => arrayInto old items
  | .obj _ => .error "json: cannot unmarshal object into Go struct field of type []uint8"

/-- One step of decoding an object into a token entry: the pair of the entry
so far and the first error saved so far, updated with one key and value. Keys
that name no field are skipped. -/
def unmarshalTokenField (arrayInto : ArrayIntoBytes) (acc : Token × Option GoError)
    (kv : String × Json) : Token × Option GoError :=
  let keep (e : GoError) : Option GoError := some (acc.2.getD e)
  if keyMatches kv.1 "type" then
    match unmarshalString acc.1.Typ kv.2 with
    | .ok s => ({ acc.1 with Typ := s }, acc.2)
    | .error e => (acc.1, keep e)
  else if keyMatches kv.1 "context" then
    match unmarshalBytes arrayInto acc.1.Context kv.2 with
    | .ok b => ({ acc.1 with Context := b }, acc.2)
    | .error e => (acc.1, keep e)
  else if keyMatches kv.1 "key" then
    match unmarshalBytes arrayInto acc.1.Key kv.2 with
    | .ok b => ({ acc.1 with Key := b }, acc.2)
    | .error e => (acc.1, keep e)
  else acc

/-- Decoding a JSON value into an entry of `Luks2Dump.Tokens`, as
`json.Unmarshal` does inside `getLuksData`: the fields are `type`, `context`
and `key`; the entry has no field for `keyslots`. -/
def unmarshalToken (arrayInto : ArrayIntoBytes) : Json → Except GoError Token
  | .obj fields =>
    match fields.foldl (unmarshalTokenField arrayInto)
        ({ Typ := "", Context := .nil, Key := .nil }, none) with
    | (token, none) => .ok token
    | (_, some e) => .error e
  | .null => .ok { Typ := "", Context := .nil, Key := .nil }
  | _ => .error "json: cannot unmarshal into Go value of type struct"

/-! ## The outside world of one run of the client -/

/-- The type `tpmutil.Handle` (a `uint32`). -/
abbrev Handle := Nat

/-- A public key as `crypto/x509` and go-tpm hand it out: an RSA key or a key
of another kind. -/
inductive AnyPublicKey where
  | rsa (key : PublicKey) : AnyPublicKey
  | other (kind : String) : AnyPublicKey
  deriving DecidableEq, Repr

/-- What a run does to the outside, in order. A handle event is recorded when
the TPM call succeeded. -/
inductive Event where
  | log (msg : String) : Event
  | stdout (msg : String) : Event
  | contextLoad (handle : Handle) : Event
  | createPrimary (handle : Handle) : Event
  | flushContext (handle : Handle) : Event
  | luksAddKey (keySlot : Int) : Event
  | tokenImport (token : EscrowRecord) : Event
  | randRead : Event
  | generateQuote (handle : Handle) : Event
  | verifyQuote : Event
  | closeTPM : Event
  deriving DecidableEq, Repr

/-- The answers of the TPM, of the `cryptsetup` tool, of the random source and
of the crypto libraries during one run of `getAndVerifyQuote`. -/
structure World where
  /-- The error of `tpm2.OpenTPM`. -/
  openTPM : Option GoError
  /-- The result of the `n`-th call of `getLuksData` in the run
  (`cryptsetup luksDump` and the decoding of its output), counted from 0. -/
  getLuksData : Nat → Except GoError Luks2Dump
  /-- The function `tpm2.ContextLoad`. -/
  contextLoad : Slice Byte → Except GoError Handle
  /-- The function `x509.ParsePKIXPublicKey`. -/
  parsePKIXPublicKey : Slice Byte → Except GoError AnyPublicKey
  /-- The result of `tpm2.CreatePrimary` with the template of `createKey`. -/
  createPrimary : Except GoError (Handle × AnyPublicKey)
  /-- The line `fmt.Scanln` reads. -/
  existingPassword : String
  /-- The error of running `cryptsetup luksAddKey`. -/
  luksAddKey : Int → String → Slice Byte → Option GoError
  /-- The function `tpm2.ContextSave`. -/
  contextSave : Handle → Except GoError (Slice Byte)
  /-- The function `x509.MarshalPKIXPublicKey`. -/
  marshalPKIXPublicKey : PublicKey → Except GoError (Slice Byte)
  /-- The error of running `cryptsetup token import` on the token document. -/
  tokenImport : EscrowRecord → Option GoError
  /-- The result of `rand.Read` on the 20-byte nonce buffer. -/
  randRead : Except GoError (List Byte)
  /-- The function `tpm2.Quote`, with the RSA signature bytes taken out of its
  result. -/
  quote : Handle → Slice Byte → PCRSelection → Except GoError (Slice Byte × Slice Byte)
  /-- The error of `tpm2.FlushContext`. -/
  flushContext : Handle → Option GoError
  /-- The libraries behind `verifyQuote`. -/
  quoteLib : QuoteLib

/-! ## `client/tpm.go`: keys and quotes -/

/-- The function `generateQuote` of `client/tpm.go`. -/
def generateQuote (w : World) (aikHandle : Handle) (nonce : Slice Byte)
    (pcrSelection : PCRSelection) : Except GoError (Slice Byte × Slice Byte) :=
  match w.quote aikHandle nonce pcrSelection with
  | .error err => .error err
  | .ok (quote, signature) => .ok (quote, signature)

/-- The function `createKey` of `client/tpm.go`. -/
def createKey (w : World) : List Event × Except GoError (Handle × PublicKey) :=
  match w.createPrimary with
  | .error err => ([], .error err)
  | .ok (handle, .rsa rsaKey) => ([.createPrimary handle], .ok (handle, rsaKey))
  | .ok (handle, .other _) => ([.createPrimary handle], .error "public key is not RSA")

/-! ## `client/luks.go`: the escrow token -/

/-- The map literal `token` that `createLuksToken` builds. -/
def luksToken (keySlot : Int) (context pubKeyBytes : Slice Byte) : EscrowRecord :=
  { Typ := "watchfulButler", keyslots := .of [toString keySlot],
    context := context, key := pubKeyBytes }

/-- The function `addLuksKeyToDisk` of `client/luks.go`. -/
def addLuksKeyToDisk (w : World) (keySlot : Int) (existingPassword : String)
    (key : Slice Byte) : List Event × Option GoError :=
  match w.luksAddKey keySlot existingPassword key with
  | some err => ([], some ("failed to add LUKS key: " ++ err))
  | none => ([.luksAddKey keySlot], none)

/-- The function `createLuksToken` of `client/luks.go`. The document handed to
`cryptsetup token import` is `marshalToken` of the token; `json.Marshal` has no
error on such a map. -/
def createLuksToken (w : World) (keySlot : Int) (handle : Handle) (key : PublicKey) :
    List Event × Option GoError :=
  match w.contextSave handle with
  | .error err => ([], some ("failed to save context: " ++ err))
  | .ok context =>
    match w.marshalPKIXPublicKey key with
    | .error err => ([], some ("failed to marshal public key: " ++ err))
    | .ok pubKeyBytes =>
      let token := luksToken keySlot context pubKeyBytes
      match w.tokenImport token with
      | some err => ([], some ("failed to import LUKS token: " ++ err))
      | none => ([.tokenImport token], none)

/-- The bytes of the string literal `test-go`. -/
def testGoKey : Slice Byte :=
  .of [116, 101, 115, 116, 45, 103, 111]

/-- The function `writeLuksData` of `client/luks.go`; `call` is the number of
earlier `getLuksData` calls in the run. -/
def writeLuksData (w : World) (call : Nat) (handle : Handle) (key : PublicKey) :
    List Event × Option GoError :=
  match w.getLuksData call with
  | .error err => ([], some ("failed to get existing LUKS data: " ++ err))
  | .ok existingLuksData =>
    let prompt := [Event.stdout "Enter existing LUKS password: "]
    match getFirstFreeLuksSlot existingLuksData with
    | (_, some err) => (prompt, some ("failed to find free LUKS slot: " ++ err))
    | (targetSlot, none) =>
      match addLuksKeyToDisk w targetSlot w.existingPassword testGoKey with
      | (ev, some err) => (prompt ++ ev, some ("failed to create LUKS key: " ++ err))
      | (ev, none) =>
        match createLuksToken w targetSlot handle key with
        | (ev2, some err) => (prompt ++ ev ++ ev2, some ("failed to create LUKS token: " ++ err))
        | (ev2, none) => (prompt ++ ev ++ ev2, none)

/-- The body of the loop of `getExistingLuksData` for an entry of type
`watchfulButler`: load the TPM context, then parse the public key. -/
def loadToken (w : World) (value : Token) :
    List Event × Outcome (Except GoError (Handle × PublicKey)) :=
  match w.contextLoad value.Context with
  | .error err => ([], .ret (.error ("failed to load context: " ++ err)))
  | .ok handle =>
    match w.parsePKIXPublicKey value.Key with
    | .error err =>
      ([.contextLoad handle], .ret (.error ("failed to parse public key: " ++ err)))
    | .ok (.rsa pubKey) => ([.contextLoad handle], .ret (.ok (handle, pubKey)))
    | .ok (.other _) =>
      ([.contextLoad handle], .panic "interface conversion: not *rsa.PublicKey")

/-- The loop of `getExistingLuksData` over the token map, in `range` order:
the first entry of type `watchfulButler` decides the result. -/
def scanTokens (w : World) :
    List (Int × Token) → List Event × Outcome (Except GoError (Handle × PublicKey))
  | [] => ([], .ret (.error "no LUKS token found"))
  | (_, value) :: rest =>
    if value.Typ == "watchfulButler" then loadToken w value else scanTokens w rest

/-- The function `getExistingLuksData` of `client/luks.go`; `call` is the
number of earlier `getLuksData` calls in the run. -/
def getExistingLuksData (w : World) (call : Nat) :
    List Event × Outcome (Except GoError (Handle × PublicKey)) :=
  match w.getLuksData call with
  | .error err => ([], .ret (.error ("failed to get LUKS data: " ++ err)))
  | .ok luksDump => scanTokens w luksDump.Tokens

/-! ## `client/main.go` -/

/-- The PCR selection `pcrs` of `getAndVerifyQuote`. -/
def pcrs : PCRSelection :=
  { Hash := AlgSHA256, PCRs := .of [23] }

/-- The part of `getAndVerifyQuote` from the nonce to the end of the function
body. -/
def quoteAndVerify (w : World) (handle : Handle) (rsaKey : PublicKey) :
    List Event × Outcome Unit :=
  match w.randRead with
  | .error err => ([.randRead, .log ("Failed to generate nonce: " ++ err)], .ret ())
  | .ok bytes =>
    let nonce : Slice Byte := .of bytes
    let quoted : List Event × Slice Byte × Slice Byte :=
      match generateQuote w handle nonce pcrs with
      | .error err =>
        ([.generateQuote handle, .log ("Failed to generate quote: " ++ err)], .nil, .nil)
      | .ok (quote, signature) => ([.generateQuote handle], quote, signature)
    match verifyQuote w.quoteLib rsaKey quoted.2.1 quoted.2.2 pcrs nonce with
    | .panic msg => ([.randRead] ++ quoted.1 ++ [.verifyQuote], .panic msg)
    | .ret (some err) =>
      ([.randRead] ++ quoted.1 ++ [.verifyQuote, .log ("Failed to verify quote: " ++ err)],
        .ret ())
    | .ret none =>
      ([.randRead] ++ quoted.1 ++ [.verifyQuote, .stdout "Quote verified successfully\n"],
        .ret ())

/-- The deferred call of `tpm2.FlushContext`, run after the body whether the
body returned or panicked; an error of the flush is a panic. -/
def deferFlush (w : World) (handle : Handle) (body : List Event × Outcome Unit) :
    List Event × Outcome Unit :=
  match w.flushContext handle with
  | some err => (body.1, .panic err)
  | none => (body.1 ++ [.flushContext handle], body.2)

/-- The function `getAndVerifyQuote` of `client/main.go` after the TPM has been
opened, without the deferred `rwc.Close`. -/
def getAndVerifyQuoteOpened (w : World) : List Event × Outcome Unit :=
  match getExistingLuksData w 0 with
  | (ev, .panic msg) => (ev, .panic msg)
  | (ev, .ret (.ok (handle, rsaKey))) =>
    let rest := deferFlush w handle (quoteAndVerify w handle rsaKey)
    (ev ++ rest.1, rest.2)
  | (ev, .ret (.error _)) =>
    match createKey w with
    | (ev2, .error err) =>
      (ev ++ [.log "Creating TPM key"] ++ ev2 ++ [.log ("Failed to create TPM key: " ++ err)],
        .ret ())
    | (ev2, .ok (handle, rsaKey)) =>
      let written := writeLuksData w 1 handle rsaKey
      let rest := deferFlush w handle (quoteAndVerify w handle rsaKey)
      (ev ++ [.log "Creating TPM key"] ++ ev2 ++ written.1 ++ rest.1, rest.2)

/-- The function `getAndVerifyQuote` of `client/main.go`: the events of the
run and how it ends. -/
def getAndVerifyQuote (w : World) : List Event × Outcome Unit :=
  match w.openTPM with
  | some err => ([.log ("Failed to open TPM device: " ++ err)], .ret ())
  | none =>
    let run := getAndVerifyQuoteOpened w
    (run.1 ++ [.closeTPM], run.2)

/-! ## A small library instance for concrete runs -/

/-- The slice that appending the indices one by one to a nil `[]int` gives,
as the go-tpm decoder builds the PCR list: nil when there is no index. -/
def appendedInts : List Int → Slice Int
  | [] => .nil
  | i :: rest => .of (i :: rest)

/-- A toy attestation decoder: the first byte is the length of the extra
data, the extra data follows, the remaining bytes are PCR indices under
SHA-256. -/
def toyDecode : Slice Byte → Except GoError AttestationData
  | .of (n :: rest) =>
    if n.val ≤ rest.length then
      .ok { ExtraData := .of (rest.take n.val),
            AttestedQuoteInfo := some { PCRSelection :=
              { Hash := AlgSHA256,
                PCRs := appendedInts ((rest.drop n.val).map (fun b => (b.val : Int))) } } }
    else .error "decoding ExtraData failed"
  | _ => .error "decoding Magic/Type failed"

/-- A toy library: the digest is the message itself and a signature is valid
when it equals the digest. -/
def toyLib : QuoteLib :=
  { sha256Sum := fun msg => msg
    verifyPKCS1v15 := fun _ digest signature =>
      if signature.elems = digest then none else some "crypto/rsa: verification error"
    decodeAttestationData := toyDecode }

/-- A public key for concrete runs. -/
def toyKey : PublicKey :=
  { N := 3233, E := 17 }

/-- A quote for `toyDecode`: extra data `[1, 2]`, PCR selection `[23]`. -/
def toyQuote : Slice Byte :=
  .of [2, 1, 2, 23]

/-- A quote for `toyDecode` that selects no PCR: extra data `[1, 2]`, and a
nil slice of PCR indices. -/
def toyQuoteNoPCR : Slice Byte :=
  .of [2, 1, 2]

/-- The entry of the token map that the loop of `getExistingLuksData` stops
at: the first of type `watchfulButler` in `range` order. -/
def selectToken (tokens : List (Int × Token)) : Option (Int × Token) :=
  tokens.find? (fun kv => kv.2.Typ == "watchfulButler")

/-- How often a run obtained the handle from `ContextLoad` or `CreatePrimary`. -/
def obtained (handle : Handle) (trace : List Event) : Nat :=
  trace.count (.contextLoad handle) + trace.count (.createPrimary handle)

/-- How often a run flushed the handle. -/
def flushed (handle : Handle) (trace : List Event) : Nat :=
  trace.count (.flushContext handle)

/-- A toy TPM quote: the length of the nonce, the nonce, the selected PCR
indices; the signature of the toy library is the quote itself. -/
def toyQuoteOf (nonce : Slice Byte) (sel : PCRSelection) : Slice Byte :=
  .of (byteOfNat nonce.elems.length :: nonce.elems ++
    sel.PCRs.elems.map (fun i => byteOfNat i.toNat))

/-- A toy world in which every call succeeds: a context blob of one byte `b`
loads as handle `0x80000000 + b`, a key blob of two bytes parses as an RSA key,
`CreatePrimary` hands out handle `0x80000001`, and the two calls of
`getLuksData` give `first` and `second`. -/
def toyWorld (first second : Except GoError Luks2Dump) : World :=
  { openTPM := none
    getLuksData := fun n => if n = 0 then first else second
    contextLoad := fun blob =>
      match blob.elems with
      | [b] => .ok (0x80000000 + b.val)
      | _ => .error "integrity check failed"
    parsePKIXPublicKey := fun blob =>
      match blob.elems with
      | [n, e] => .ok (.rsa { N := n.val, E := e.val })
      | _ => .error "asn1: syntax error: truncated tag or length"
    createPrimary := .ok (0x80000001, .rsa toyKey)
    existingPassword := "hunter2"
    luksAddKey := fun _ _ _ => none
    contextSave := fun handle => .ok (.of [byteOfNat handle])
    marshalPKIXPublicKey := fun key => .ok (.of [byteOfNat key.N, byteOfNat key.E.toNat])
    tokenImport := fun _ => none
    randRead := .ok [1, 2, 3, 4, 5, 6, 7, 8, 9, 10, 11, 12, 13, 14, 15, 16, 17, 18, 19, 20]
    quote := fun _ nonce sel => .ok (toyQuoteOf nonce sel, toyQuoteOf nonce sel)
    flushContext := fun _ => none
    quoteLib := toyLib }

/-- A dump with one free keyslot map and one `watchfulButler` token whose
context loads and whose key blob does not parse. -/
def dumpBadKey : Luks2Dump :=
  { Keyslots := [(0, ⟨"luks2"⟩)]
    Tokens := [(0, { Typ := "watchfulButler", Context := .of [0], Key := .of [] })] }

/-- A dump without tokens in which all of the keyslots 0..31 are occupied. -/
def dumpFull : Luks2Dump :=
  { Keyslots := (List.range 32).map (fun i => ((i : Int), ⟨"luks2"⟩))
    Tokens := [] }

/-- A dump without tokens and without keyslots. -/
def dumpEmpty : Luks2Dump :=
  { Keyslots := [], Tokens := [] }

/-- Two `watchfulButler` tokens, visited in the order 0, 1. -/
def tokensAsc : List (Int × Token) :=
  [(0, { Typ := "watchfulButler", Context := .of [4], Key := .of [33, 3] }),
    (1, { Typ := "watchfulButler", Context := .of [5], Key := .of [35, 5] })]

/-- The same two tokens, visited in the order 1, 0. -/
def tokensDesc : List (Int × Token) :=
  [(1, { Typ := "watchfulButler", Context := .of [5], Key := .of [35, 5] }),
    (0, { Typ := "watchfulButler", Context := .of [4], Key := .of [33, 3] })]

/-- One `watchfulButler` token and one token of another type, visited in the
order 0, 1. -/
def tokensMixed : List (Int × Token) :=
  [(0, { Typ := "systemd-tpm2", Context := .nil, Key := .nil }),
    (1, { Typ := "watchfulButler", Context := .of [5], Key := .of [35, 5] })]

/-! ## Lemmas on the comparisons -/

theorem bytesEqual_iff (a b : Slice Byte) : bytesEqual a b = true ↔ a.elems = b.elems := by
  simp [bytesEqual]

theorem deepEqual_iff (a b : Slice Int) : deepEqual a b = true ↔ a = b := by
  cases a <;> cases b <;> simp [deepEqual]
  intro h
  rw [h]

theorem pcrSelection_ne_iff (s t : PCRSelection) :
    s ≠ t ↔ s.Hash ≠ t.Hash ∨ s.PCRs ≠ t.PCRs := by
  cases s
  cases t
  simp only [ne_eq, PCRSelection.mk.injEq]
  tauto

/-- The selector check of `verifyQuote` fails exactly when the two selections
differ as Go values. -/
theorem selectorCheck_iff (info sel : PCRSelection) :
    (info.Hash != sel.Hash || !deepEqual info.PCRs sel.PCRs) = true ↔
      (info.Hash ≠ sel.Hash ∨ info.PCRs ≠ sel.PCRs) := by
  simp [← deepEqual_iff]

/-- Two slices are the same Go value exactly when they have the same elements
in the same order and are both nil or both non-nil. -/
theorem slice_eq_iff {α : Type} (a b : Slice α) :
    a = b ↔ a.elems = b.elems ∧ (a = .nil ↔ b = .nil) := by
  cases a <;> cases b <;> simp [Slice.elems]

/-- The function `reflect.DeepEqual` tells the nil slice from an empty non-nil
slice, which `bytes.Equal` does not. -/
theorem deepEqual_nil_empty :
    deepEqual .nil (.of []) = false ∧ bytesEqual .nil (.of []) = true := by
  decide

/-! ## The branches of `verifyQuote` -/

theorem verifyQuote_of_signature_error (lib : QuoteLib) (pub : PublicKey)
    (quote signature : Slice Byte) (sel : PCRSelection) (nonce : Slice Byte) (e : GoError)
    (hs : lib.verifyPKCS1v15 pub (lib.sha256Sum quote.elems) signature = some e) :
    verifyQuote lib pub quote signature sel nonce = .ret (some e) := by
  simp [verifyQuote, hs]

theorem verifyQuote_of_decode_error (lib : QuoteLib) (pub : PublicKey)
    (quote signature : Slice Byte) (sel : PCRSelection) (nonce : Slice Byte) (e : GoError)
    (hs : lib.verifyPKCS1v15 pub (lib.sha256Sum quote.elems) signature = none)
    (hd : lib.decodeAttestationData quote = .error e) :
    verifyQuote lib pub quote signature sel nonce = .ret (some e) := by
  simp [verifyQuote, hs, hd]

theorem verifyQuote_of_nonce_ne (lib : QuoteLib) (pub : PublicKey)
    (quote signature : Slice Byte) (sel : PCRSelection) (nonce : Slice Byte)
    (data : AttestationData)
    (hs : lib.verifyPKCS1v15 pub (lib.sha256Sum quote.elems) signature = none)
    (hd : lib.decodeAttestationData quote = .ok data)
    (hn : data.ExtraData.elems ≠ nonce.elems) :
    verifyQuote lib pub quote signature sel nonce = .ret (some "nonce mismatch") := by
  have hb : bytesEqual data.ExtraData nonce = false := by
    cases h : bytesEqual data.ExtraData nonce
    · rfl
    · exact absurd ((bytesEqual_iff _ _).1 h) hn
  simp [verifyQuote, hs, hd, hb]

theorem verifyQuote_of_no_quote_info (lib : QuoteLib) (pub : PublicKey)
    (quote signature : Slice Byte) (sel : PCRSelection) (nonce : Slice Byte)
    (data : AttestationData)
    (hs : lib.verifyPKCS1v15 pub (lib.sha256Sum quote.elems) signature = none)
    (hd : lib.decodeAttestationData quote = .ok data)
    (hn : data.ExtraData.elems = nonce.elems)
    (hq : data.AttestedQuoteInfo = none) :
    verifyQuote lib pub quote signature sel nonce =
      .panic "runtime error: invalid memory address or nil pointer dereference" := by
  have hb : bytesEqual data.ExtraData nonce = true := (bytesEqual_iff _ _).2 hn
  simp [verifyQuote, hs, hd, hb, hq]

theorem verifyQuote_of_selection_ne (lib : QuoteLib) (pub : PublicKey)
    (quote signature : Slice Byte) (sel : PCRSelection) (nonce : Slice Byte)
    (data : AttestationData) (info : QuoteInfo)
    (hs : lib.verifyPKCS1v15 pub (lib.sha256Sum quote.elems) signature = none)
    (hd : lib.decodeAttestationData quote = .ok data)
    (hn : data.ExtraData.elems = nonce.elems)
    (hq : data.AttestedQuoteInfo = some info)
    (hsel : info.PCRSelection.Hash ≠ sel.Hash ∨ info.PCRSelection.PCRs ≠ sel.PCRs) :
    verifyQuote lib pub quote signature sel nonce = .ret (some "PCR selection mismatch") := by
  have hb : bytesEqual data.ExtraData nonce = true := (bytesEqual_iff _ _).2 hn
  have hc := (selectorCheck_iff info.PCRSelection sel).2 hsel
  simp only [verifyQuote, hs, hd, hb, hq, hc, Bool.not_true, Bool.false_eq_true, if_false,
    if_true]

theorem verifyQuote_of_all_pass (lib : QuoteLib) (pub : PublicKey)
    (quote signature : Slice Byte) (sel : PCRSelection) (nonce : Slice Byte)
    (data : AttestationData) (info : QuoteInfo)
    (hs : lib.verifyPKCS1v15 pub (lib.sha256Sum quote.elems) signature = none)
    (hd : lib.decodeAttestationData quote = .ok data)
    (hn : data.ExtraData.elems = nonce.elems)
    (hq : data.AttestedQuoteInfo = some info)
    (hh : info.PCRSelection.Hash = sel.Hash) (hp : info.PCRSelection.PCRs = sel.PCRs) :
    verifyQuote lib pub quote signature sel nonce = .ret none := by
  have hb : bytesEqual data.ExtraData nonce = true := (bytesEqual_iff _ _).2 hn
  have hc : (info.PCRSelection.Hash != sel.Hash ||
      !deepEqual info.PCRSelection.PCRs sel.PCRs) = false := by
    cases h : (info.PCRSelection.Hash != sel.Hash || !deepEqual info.PCRSelection.PCRs sel.PCRs)
    · rfl
    · rcases (selectorCheck_iff info.PCRSelection sel).1 h with h2 | h2
      · exact absurd hh h2
      · exact absurd hp h2
  simp only [verifyQuote, hs, hd, hb, hq, hc, Bool.not_true, Bool.false_eq_true, if_false]

/-! ## Theorems on `verifyQuote` -/

/-- C1, as stated, fails. The quote decodes to a nil slice of PCR indices and
the expected selector holds an empty non-nil slice: the signature check passes,
the extra data has the bytes of the nonce, the hash algorithms are equal and the
two lists of indices are equal (both have no element), and `verifyQuote`
returns the PCR-selection-mismatch error, because `reflect.DeepEqual` tells a
nil slice from an empty one. -/
theorem verifyQuote_rejects_nil_against_empty :
    toyLib.verifyPKCS1v15 toyKey (toyLib.sha256Sum toyQuoteNoPCR.elems) toyQuoteNoPCR = none ∧
      toyLib.decodeAttestationData toyQuoteNoPCR =
        .ok { ExtraData := .of [1, 2],
              AttestedQuoteInfo := some { PCRSelection := { Hash := AlgSHA256, PCRs := .nil } } } ∧
      (Slice.nil : Slice Int).elems = (Slice.of [] : Slice Int).elems ∧
      verifyQuote toyLib toyKey toyQuoteNoPCR toyQuoteNoPCR
          { Hash := AlgSHA256, PCRs := .of [] } (.of [1, 2]) =
        .ret (some "PCR selection mismatch") ∧
      ¬ (verifyQuote toyLib toyKey toyQuoteNoPCR toyQuoteNoPCR
            { Hash := AlgSHA256, PCRs := .of [] } (.of [1, 2]) = .ret none ↔
          (toyLib.verifyPKCS1v15 toyKey (toyLib.sha256Sum toyQuoteNoPCR.elems) toyQuoteNoPCR =
              none ∧
            ∃ data, toyLib.decodeAttestationData toyQuoteNoPCR = .ok data ∧
              data.ExtraData.elems = (Slice.of [1, 2] : Slice Byte).elems ∧
              ∃ info, data.AttestedQuoteInfo = some info ∧
                info.PCRSelection.Hash = AlgSHA256 ∧
                info.PCRSelection.PCRs.elems = (Slice.of [] : Slice Int).elems)) := by
  refine ⟨by decide, rfl, rfl, by decide, ?_⟩
  intro h
  have hret := h.2 ⟨by decide,
    { ExtraData := .of [1, 2],
      AttestedQuoteInfo := some { PCRSelection := { Hash := AlgSHA256, PCRs := .nil } } },
    rfl, rfl, { PCRSelection := { Hash := AlgSHA256, PCRs := .nil } }, rfl, rfl, rfl⟩
  revert hret
  decide

/-- C1, amended. `verifyQuote` returns the nil error if and only if the
signature check over the SHA-256 digest of the quote succeeds, the quote
decodes, the decoded `ExtraData` has the same bytes as the nonce, and the
decoded quote information carries a PCR selection whose hash algorithm equals
the expected one and whose slice of PCR indices equals the expected one as
`reflect.DeepEqual` compares them: the same indices in the same order, and both
slices nil or both non-nil. -/
theorem verifyQuote_nil_iff (lib : QuoteLib) (pub : PublicKey) (quote signature : Slice Byte)
    (sel : PCRSelection) (nonce : Slice Byte) :
    verifyQuote lib pub quote signature sel nonce = .ret none ↔
      (lib.verifyPKCS1v15 pub (lib.sha256Sum quote.elems) signature = none ∧
        ∃ data, lib.decodeAttestationData quote = .ok data ∧
          data.ExtraData.elems = nonce.elems ∧
          ∃ info, data.AttestedQuoteInfo = some info ∧
            info.PCRSelection.Hash = sel.Hash ∧
            info.PCRSelection.PCRs.elems = sel.PCRs.elems ∧
            (info.PCRSelection.PCRs = .nil ↔ sel.PCRs = .nil)) := by
  have key : ∀ info : QuoteInfo,
      (info.PCRSelection.PCRs.elems = sel.PCRs.elems ∧
        (info.PCRSelection.PCRs = .nil ↔ sel.PCRs = .nil)) ↔
      info.PCRSelection.PCRs = sel.PCRs := fun info => (slice_eq_iff _ _).symm
  simp only [key]
  constructor
  · intro h
    cases hs : lib.verifyPKCS1v15 pub (lib.sha256Sum quote.elems) signature with
    | some e =>
      rw [verifyQuote_of_signature_error lib pub quote signature sel nonce e hs] at h
      cases h
    | none =>
      refine ⟨rfl, ?_⟩
      cases hd : lib.decodeAttestationData quote with
      | error e =>
        rw [verifyQuote_of_decode_error lib pub quote signature sel nonce e hs hd] at h
        cases h
      | ok data =>
        refine ⟨data, rfl, ?_⟩
        by_cases hn : data.ExtraData.elems = nonce.elems
        · refine ⟨hn, ?_⟩
          cases hq : data.AttestedQuoteInfo with
          | none =>
            rw [verifyQuote_of_no_quote_info lib pub quote signature sel nonce data hs hd hn hq]
              at h
            cases h
          | some info =>
            refine ⟨info, rfl, ?_⟩
            by_contra hne
            have hsel : info.PCRSelection.Hash ≠ sel.Hash ∨
                info.PCRSelection.PCRs ≠ sel.PCRs := by
              by_cases hh : info.PCRSelection.Hash = sel.Hash
              · right
                intro hp
                exact hne ⟨hh, hp⟩
              · left
                exact hh
            rw [verifyQuote_of_selection_ne lib pub quote signature sel nonce data info hs hd hn
              hq hsel] at h
            cases h
        · rw [verifyQuote_of_nonce_ne lib pub quote signature sel nonce data hs hd hn] at h
          cases h
  · rintro ⟨hs, data, hd, hn, info, hq, hh, hp⟩
    exact verifyQuote_of_all_pass lib pub quote signature sel nonce data info hs hd hn hq hh hp

/-- C2. Replay rejection: when the signature check succeeds and the quote
decodes to attestation data whose extra data is the challenge `c1`, verifying
with a challenge `c2` whose bytes differ from those of `c1` (of whatever
length, the same length included) returns the nonce-mismatch error, for every
expected selector. -/
theorem verifyQuote_replay_rejected (lib : QuoteLib) (pub : PublicKey)
    (quote signature : Slice Byte) (sel : PCRSelection) (c1 c2 : Slice Byte)
    (data : AttestationData)
    (hs : lib.verifyPKCS1v15 pub (lib.sha256Sum quote.elems) signature = none)
    (hd : lib.decodeAttestationData quote = .ok data)
    (hc1 : data.ExtraData.elems = c1.elems)
    (hne : c2.elems ≠ c1.elems) :
    verifyQuote lib pub quote signature sel c2 = .ret (some "nonce mismatch") := by
  apply verifyQuote_of_nonce_ne lib pub quote signature sel c2 data hs hd
  rw [hc1]
  exact fun h => hne h.symm

/-- C2 at a concrete input: a quote for the challenge `[1, 2]`, verified with
the challenge `[1, 3]` of the same length. -/
theorem verifyQuote_replay_rejected_witness :
    verifyQuote toyLib toyKey toyQuote toyQuote pcrs (.of [1, 2]) = .ret none ∧
      verifyQuote toyLib toyKey toyQuote toyQuote pcrs (.of [1, 3]) =
        .ret (some "nonce mismatch") :=
  ⟨by decide,
    verifyQuote_replay_rejected toyLib toyKey toyQuote toyQuote pcrs (.of [1, 2]) (.of [1, 3])
      { ExtraData := .of [1, 2],
        AttestedQuoteInfo := some { PCRSelection := { Hash := AlgSHA256, PCRs := .of [23] } } }
      (by decide) rfl (by decide) (by decide)⟩

/-- C3. Selector downgrade rejection: when the signature check succeeds, the
quote decodes and its extra data has the bytes of the expected nonce, a decoded
PCR selection that differs from the expected selector in the hash algorithm or
in the slice of register indices (length, an element, or the order) makes
`verifyQuote` return the PCR-selection-mismatch error. -/
theorem verifyQuote_selector_rejected (lib : QuoteLib) (pub : PublicKey)
    (quote signature : Slice Byte) (sel : PCRSelection) (nonce : Slice Byte)
    (data : AttestationData) (info : QuoteInfo)
    (hs : lib.verifyPKCS1v15 pub (lib.sha256Sum quote.elems) signature = none)
    (hd : lib.decodeAttestationData quote = .ok data)
    (hn : data.ExtraData.elems = nonce.elems)
    (hq : data.AttestedQuoteInfo = some info)
    (hsel : info.PCRSelection.Hash ≠ sel.Hash ∨ info.PCRSelection.PCRs ≠ sel.PCRs) :
    verifyQuote lib pub quote signature sel nonce = .ret (some "PCR selection mismatch") :=
  verifyQuote_of_selection_ne lib pub quote signature sel nonce data info hs hd hn hq hsel

/-- C3 at the input of the downgrade test: a quote over SHA-256 and `[23]`,
verified against SHA-256 and `[0, 23]`. -/
theorem verifyQuote_selector_rejected_witness :
    toyLib.decodeAttestationData toyQuote =
        .ok { ExtraData := .of [1, 2],
              AttestedQuoteInfo := some { PCRSelection := { Hash := AlgSHA256, PCRs := .of [23] } } } ∧
      verifyQuote toyLib toyKey toyQuote toyQuote { Hash := AlgSHA256, PCRs := .of [0, 23] }
        (.of [1, 2]) = .ret (some "PCR selection mismatch") :=
  ⟨rfl,
    verifyQuote_selector_rejected toyLib toyKey toyQuote toyQuote
      { Hash := AlgSHA256, PCRs := .of [0, 23] } (.of [1, 2])
      { ExtraData := .of [1, 2],
        AttestedQuoteInfo := some { PCRSelection := { Hash := AlgSHA256, PCRs := .of [23] } } }
      { PCRSelection := { Hash := AlgSHA256, PCRs := .of [23] } }
      (by decide) rfl (by decide) rfl (Or.inr (by decide))⟩

/-- C4. `verifyQuote` reports the first failing check, in the order signature,
decode, nonce, selector: a failing signature check gives its error whatever the
nonce and the selector are; with a good signature a failing decode gives its
error; with both good a nonce with other bytes gives the nonce-mismatch error;
with all three good a differing selection gives the selection-mismatch error;
and every error `verifyQuote` returns is the error of exactly one of these
checks, the checks before it having passed. -/
theorem verifyQuote_first_failure (lib : QuoteLib) (pub : PublicKey)
    (quote signature : Slice Byte) (sel : PCRSelection) (nonce : Slice Byte) :
    (∀ e, lib.verifyPKCS1v15 pub (lib.sha256Sum quote.elems) signature = some e →
        verifyQuote lib pub quote signature sel nonce = .ret (some e)) ∧
    (∀ e, lib.verifyPKCS1v15 pub (lib.sha256Sum quote.elems) signature = none →
        lib.decodeAttestationData quote = .error e →
        verifyQuote lib pub quote signature sel nonce = .ret (some e)) ∧
    (∀ data, lib.verifyPKCS1v15 pub (lib.sha256Sum quote.elems) signature = none →
        lib.decodeAttestationData quote = .ok data →
        data.ExtraData.elems ≠ nonce.elems →
        verifyQuote lib pub quote signature sel nonce = .ret (some "nonce mismatch")) ∧
    (∀ data info, lib.verifyPKCS1v15 pub (lib.sha256Sum quote.elems) signature = none →
        lib.decodeAttestationData quote = .ok data →
        data.ExtraData.elems = nonce.elems →
        data.AttestedQuoteInfo = some info →
        info.PCRSelection ≠ sel →
        verifyQuote lib pub quote signature sel nonce =
          .ret (some "PCR selection mismatch")) ∧
    (∀ e, verifyQuote lib pub quote signature sel nonce = .ret (some e) →
        lib.verifyPKCS1v15 pub (lib.sha256Sum quote.elems) signature = some e ∨
        (lib.verifyPKCS1v15 pub (lib.sha256Sum quote.elems) signature = none ∧
          lib.decodeAttestationData quote = .error e) ∨
        (lib.verifyPKCS1v15 pub (lib.sha256Sum quote.elems) signature = none ∧
          e = "nonce mismatch" ∧
          ∃ data, lib.decodeAttestationData quote = .ok data ∧
            data.ExtraData.elems ≠ nonce.elems) ∨
        (lib.verifyPKCS1v15 pub (lib.sha256Sum quote.elems) signature = none ∧
          e = "PCR selection mismatch" ∧
          ∃ data info, lib.decodeAttestationData quote = .ok data ∧
            data.ExtraData.elems = nonce.elems ∧
            data.AttestedQuoteInfo = some info ∧ info.PCRSelection ≠ sel)) := by
  refine ⟨?_, ?_, ?_, ?_, ?_⟩
  · intro e hs
    exact verifyQuote_of_signature_error lib pub quote signature sel nonce e hs
  · intro e hs hd
    exact verifyQuote_of_decode_error lib pub quote signature sel nonce e hs hd
  · intro data hs hd hn
    exact verifyQuote_of_nonce_ne lib pub quote signature sel nonce data hs hd hn
  · intro data info hs hd hn hq hsel
    exact verifyQuote_of_selection_ne lib pub quote signature sel nonce data info hs hd hn hq
      ((pcrSelection_ne_iff _ _).1 hsel)
  · intro e h
    cases hs : lib.verifyPKCS1v15 pub (lib.sha256Sum quote.elems) signature with
    | some e2 =>
      rw [verifyQuote_of_signature_error lib pub quote signature sel nonce e2 hs] at h
      cases h
      exact Or.inl rfl
    | none =>
      right
      cases hd : lib.decodeAttestationData quote with
      | error e2 =>
        rw [verifyQuote_of_decode_error lib pub quote signature sel nonce e2 hs hd] at h
        cases h
        exact Or.inl ⟨rfl, rfl⟩
      | ok data =>
        right
        by_cases hn : data.ExtraData.elems = nonce.elems
        · right
          cases hq : data.AttestedQuoteInfo with
          | none =>
            rw [verifyQuote_of_no_quote_info lib pub quote signature sel nonce data hs hd hn hq]
              at h
            cases h
          | some info =>
            by_cases hsel : info.PCRSelection = sel
            · rw [verifyQuote_of_all_pass lib pub quote signature sel nonce data info hs hd hn
                hq (by rw [hsel]) (by rw [hsel])] at h
              cases h
            · rw [verifyQuote_of_selection_ne lib pub quote signature sel nonce data info hs hd
                hn hq ((pcrSelection_ne_iff _ _).1 hsel)] at h
              cases h
              exact ⟨rfl, rfl, data, info, rfl, hn, hq, hsel⟩
        · rw [verifyQuote_of_nonce_ne lib pub quote signature sel nonce data hs hd hn] at h
          cases h
          exact Or.inl ⟨rfl, rfl, data, rfl, hn⟩

/-- C4 at a concrete input: the signature of a valid quote with its last byte
changed, verified with a wrong nonce and a wrong selector, gives the error of
the signature check. -/
theorem verifyQuote_first_failure_witness :
    verifyQuote toyLib toyKey toyQuote toyQuote pcrs (.of [1, 2]) = .ret none ∧
      verifyQuote toyLib toyKey toyQuote (.of [2, 1, 2, 22])
        { Hash := AlgSHA256, PCRs := .of [0, 23] } (.of [9]) =
        .ret (some "crypto/rsa: verification error") :=
  ⟨by decide,
    (verifyQuote_first_failure toyLib toyKey toyQuote (.of [2, 1, 2, 22])
      { Hash := AlgSHA256, PCRs := .of [0, 23] } (.of [9])).1
      "crypto/rsa: verification error" (by decide)⟩

/-! ## Theorems on `getFirstFreeLuksSlot` -/

theorem slotFound_iff (i : Int) (keyslots : List (Int × Keyslot)) :
    slotFound i keyslots = true ↔ i ∈ keyslots.map Prod.fst := by
  induction keyslots with
  | nil => simp [slotFound]
  | cons kv rest ih =>
    obtain ⟨slot, v⟩ := kv
    by_cases h : slot = i
    · simp [slotFound, h]
    · have h2 : ¬ i = slot := fun e => h e.symm
      simp [slotFound, h, h2, ih]

/-- The inner loop does not depend on the order in which `range` visits the
keyslot map. -/
theorem slotFound_perm (i : Int) (k1 k2 : List (Int × Keyslot)) (hp : k1.Perm k2) :
    slotFound i k1 = slotFound i k2 := by
  have h : slotFound i k1 = true ↔ slotFound i k2 = true := by
    rw [slotFound_iff, slotFound_iff]
    exact (hp.map Prod.fst).mem_iff
  cases h1 : slotFound i k1 <;> cases h2 : slotFound i k2 <;> simp_all

/-- What the outer loop returns after `n` iterations from `i`: the least free
index of `i, ..., i + n - 1`, or the error when all of them are keys. -/
theorem firstFreeLoop_spec (keyslots : List (Int × Keyslot)) (n : Nat) (i : Int) :
    (∃ m, firstFreeLoop keyslots n i = (m, none) ∧ i ≤ m ∧ m < i + n ∧
        m ∉ keyslots.map Prod.fst ∧
        ∀ j, i ≤ j → j < m → j ∈ keyslots.map Prod.fst) ∨
      (firstFreeLoop keyslots n i = (-1, some "no free LUKS slot found") ∧
        ∀ j, i ≤ j → j < i + n → j ∈ keyslots.map Prod.fst) := by
  induction n generalizing i with
  | zero =>
    right
    refine ⟨rfl, ?_⟩
    intro j h1 h2
    simp at h2
    omega
  | succ n ih =>
    by_cases hf : slotFound i keyslots = true
    · have hmem := (slotFound_iff i keyslots).1 hf
      rcases ih (i + 1) with ⟨m, hm, h1, h2, h3, h4⟩ | ⟨he, hall⟩
      · left
        refine ⟨m, ?_, by omega, by push_cast; omega, h3, ?_⟩
        · simp only [firstFreeLoop, hf, if_true]
          exact hm
        · intro j hj1 hj2
          by_cases hji : j = i
          · rw [hji]
            exact hmem
          · exact h4 j (by omega) hj2
      · right
        refine ⟨?_, ?_⟩
        · simp only [firstFreeLoop, hf, if_true]
          exact he
        · intro j hj1 hj2
          by_cases hji : j = i
          · rw [hji]
            exact hmem
          · exact hall j (by omega) (by push_cast at hj2; omega)
    · left
      have hnot : i ∉ keyslots.map Prod.fst := fun h => hf ((slotFound_iff i keyslots).2 h)
      refine ⟨i, ?_, le_refl i, by push_cast; omega, hnot, ?_⟩
      · simp [firstFreeLoop, hf]
      · intro j hj1 hj2
        omega

/-- The outer loop only looks at which of `i, ..., i + n - 1` are keys. -/
theorem firstFreeLoop_congr (k1 k2 : List (Int × Keyslot)) (n : Nat) (i : Int)
    (h : ∀ j, i ≤ j → j < i + n → (j ∈ k1.map Prod.fst ↔ j ∈ k2.map Prod.fst)) :
    firstFreeLoop k1 n i = firstFreeLoop k2 n i := by
  induction n generalizing i with
  | zero => rfl
  | succ n ih =>
    have hi : slotFound i k1 = slotFound i k2 := by
      have h0 := h i (le_refl i) (by push_cast; omega)
      rw [← slotFound_iff, ← slotFound_iff] at h0
      cases h1 : slotFound i k1 <;> cases h2 : slotFound i k2 <;> simp_all
    have hrest := ih (i + 1) (fun j hj1 hj2 => h j (by omega) (by push_cast; omega))
    simp only [firstFreeLoop, hi, hrest]

/-- C5. When the keys of `Keyslots` do not cover all of 0..31,
`getFirstFreeLuksSlot` returns `(i, nil)` with `0 ≤ i ≤ 31`, `i` not a key, and
every `j` with `0 ≤ j < i` a key: the lowest free index. -/
theorem getFirstFreeLuksSlot_lowest_free (luksDump : Luks2Dump)
    (hfree : ¬ ∀ j : Int, 0 ≤ j → j < 32 → j ∈ luksDump.Keyslots.map Prod.fst) :
    ∃ i : Int, getFirstFreeLuksSlot luksDump = (i, none) ∧ 0 ≤ i ∧ i ≤ 31 ∧
      i ∉ luksDump.Keyslots.map Prod.fst ∧
      ∀ j : Int, 0 ≤ j → j < i → j ∈ luksDump.Keyslots.map Prod.fst := by
  rcases firstFreeLoop_spec luksDump.Keyslots 32 0 with ⟨m, hm, h1, h2, h3, h4⟩ | ⟨_, hall⟩
  · exact ⟨m, hm, h1, by push_cast at h2; omega, h3, h4⟩
  · exfalso
    apply hfree
    intro j hj1 hj2
    exact hall j hj1 (by push_cast; omega)

/-- C5 at concrete inputs: occupied slots 0 and 2 give slot 1, and no occupied
slot gives slot 0. -/
theorem getFirstFreeLuksSlot_lowest_free_witness :
    getFirstFreeLuksSlot { Keyslots := [(0, ⟨"luks2"⟩), (2, ⟨"luks2"⟩)], Tokens := [] } =
        (1, none) ∧
      getFirstFreeLuksSlot { Keyslots := [], Tokens := [] } = (0, none) ∧
      ∃ i : Int, getFirstFreeLuksSlot
          { Keyslots := [(0, ⟨"luks2"⟩), (2, ⟨"luks2"⟩)], Tokens := [] } = (i, none) ∧
        0 ≤ i ∧ i ≤ 31 ∧
        i ∉ ([(0, ⟨"luks2"⟩), (2, ⟨"luks2"⟩)] : List (Int × Keyslot)).map Prod.fst ∧
        ∀ j : Int, 0 ≤ j → j < i →
          j ∈ ([(0, ⟨"luks2"⟩), (2, ⟨"luks2"⟩)] : List (Int × Keyslot)).map Prod.fst :=
  ⟨by decide, by decide,
    getFirstFreeLuksSlot_lowest_free
      { Keyslots := [(0, ⟨"luks2"⟩), (2, ⟨"luks2"⟩)], Tokens := [] }
      (fun h => absurd (h 1 (by decide) (by decide)) (by decide))⟩

/-- C6. `getFirstFreeLuksSlot` returns `-1` with the error "no free LUKS slot
found" if and only if every index 0..31 is a key of `Keyslots`, and it returns
a non-nil error in no other case; two dumps whose keyslot maps have the same
keys among 0..31 get the same result, so keys outside 0..31 neither cause the
error nor change the result. -/
theorem getFirstFreeLuksSlot_error_iff (luksDump : Luks2Dump) :
    (getFirstFreeLuksSlot luksDump = (-1, some "no free LUKS slot found") ↔
        ∀ j : Int, 0 ≤ j → j < 32 → j ∈ luksDump.Keyslots.map Prod.fst) ∧
      ((getFirstFreeLuksSlot luksDump).2 ≠ none ↔
        ∀ j : Int, 0 ≤ j → j < 32 → j ∈ luksDump.Keyslots.map Prod.fst) ∧
      (∀ other : Luks2Dump,
        (∀ j : Int, 0 ≤ j → j < 32 →
          (j ∈ luksDump.Keyslots.map Prod.fst ↔ j ∈ other.Keyslots.map Prod.fst)) →
        getFirstFreeLuksSlot other = getFirstFreeLuksSlot luksDump) ∧
      getFirstFreeLuksSlot
          { luksDump with Keyslots := luksDump.Keyslots.filter (fun kv => 0 ≤ kv.1 ∧ kv.1 < 32) } =
        getFirstFreeLuksSlot luksDump := by
  have hspec := firstFreeLoop_spec luksDump.Keyslots 32 0
  have hall_of : (∀ j : Int, 0 ≤ j → j < 32 → j ∈ luksDump.Keyslots.map Prod.fst) →
      getFirstFreeLuksSlot luksDump = (-1, some "no free LUKS slot found") := by
    intro hall
    rcases hspec with ⟨m, _, h1, h2, h3, _⟩ | ⟨he, _⟩
    · exact absurd (hall m h1 (by push_cast at h2; omega)) h3
    · exact he
  have hof_err : (getFirstFreeLuksSlot luksDump).2 ≠ none →
      ∀ j : Int, 0 ≤ j → j < 32 → j ∈ luksDump.Keyslots.map Prod.fst := by
    intro hne
    rcases hspec with ⟨m, hm, _⟩ | ⟨_, hall⟩
    · exfalso
      apply hne
      show (firstFreeLoop luksDump.Keyslots 32 0).2 = none
      rw [hm]
    · intro j hj1 hj2
      exact hall j hj1 (by push_cast; omega)
  refine ⟨⟨?_, hall_of⟩, ⟨hof_err, ?_⟩, ?_, ?_⟩
  · intro he
    apply hof_err
    rw [he]
    simp
  · intro hall
    rw [hall_of hall]
    simp
  · intro other hsame
    apply firstFreeLoop_congr
    intro j hj1 hj2
    exact (hsame j hj1 (by push_cast at hj2; omega)).symm
  · apply firstFreeLoop_congr
    intro j hj1 hj2
    have hj3 : j < 32 := by push_cast at hj2; omega
    simp only [List.mem_map, List.mem_filter, decide_eq_true_eq]
    constructor
    · rintro ⟨kv, ⟨hkv, _⟩, hfst⟩
      exact ⟨kv, hkv, hfst⟩
    · rintro ⟨kv, hkv, hfst⟩
      exact ⟨kv, ⟨hkv, by rw [hfst]; exact ⟨hj1, hj3⟩⟩, hfst⟩

/-- C6 at concrete inputs: keys -5 and 40 next to 0 and 2 leave the result at
slot 1. -/
theorem getFirstFreeLuksSlot_error_iff_witness :
    getFirstFreeLuksSlot
        { Keyslots := [(40, ⟨"luks2"⟩), (0, ⟨"luks2"⟩), (-5, ⟨"luks2"⟩), (2, ⟨"luks2"⟩)],
          Tokens := [] } =
      getFirstFreeLuksSlot { Keyslots := [(0, ⟨"luks2"⟩), (2, ⟨"luks2"⟩)], Tokens := [] } :=
  (getFirstFreeLuksSlot_error_iff
      { Keyslots := [(0, ⟨"luks2"⟩), (2, ⟨"luks2"⟩)], Tokens := [] }).2.2.1
    { Keyslots := [(40, ⟨"luks2"⟩), (0, ⟨"luks2"⟩), (-5, ⟨"luks2"⟩), (2, ⟨"luks2"⟩)],
      Tokens := [] }
    (by
      intro j hj1 hj2
      simp only [List.map_cons, List.map_nil, List.mem_cons, List.mem_singleton]
      constructor
      · intro h
        simp at h
        omega
      · intro h
        simp at h
        omega)

/-! ## The token document -/

theorem base64Index_char : ∀ i, i < 64 → base64Index (base64Char i) = some i := by
  decide

theorem base64Char_ne_pad : ∀ i, i < 64 → base64Char i ≠ '=' := by
  decide

theorem base64Char_kept : ∀ i, i < 64 → notLineBreak (base64Char i) = true := by
  decide

theorem byteOfNat_val (a : Byte) (n : Nat) (h : n % 256 = a.val) : byteOfNat n = a := by
  apply Fin.ext
  exact h

theorem base64Encode_filter (l : List Byte) :
    (base64Encode l).filter notLineBreak = base64Encode l := by
  induction l using base64Encode.induct with
  | case1 => rfl
  | case2 a =>
    have ha := a.isLt
    simp only [base64Encode]
    rw [List.filter_cons_of_pos (base64Char_kept _ (by omega)),
      List.filter_cons_of_pos (base64Char_kept _ (by omega))]
    rfl
  | case3 a b =>
    have ha := a.isLt
    have hb := b.isLt
    simp only [base64Encode]
    rw [List.filter_cons_of_pos (base64Char_kept _ (by omega)),
      List.filter_cons_of_pos (base64Char_kept _ (by omega)),
      List.filter_cons_of_pos (base64Char_kept _ (by omega))]
    rfl
  | case4 a b c rest ih =>
    have ha := a.isLt
    have hb := b.isLt
    have hc := c.isLt
    simp only [base64Encode]
    rw [List.filter_cons_of_pos (base64Char_kept _ (by omega)),
      List.filter_cons_of_pos (base64Char_kept _ (by omega)),
      List.filter_cons_of_pos (base64Char_kept _ (by omega)),
      List.filter_cons_of_pos (base64Char_kept _ (by omega)), ih]

theorem base64DecodeQuanta_encode (l : List Byte) :
    base64DecodeQuanta (base64Encode l) = some l := by
  induction l using base64Encode.induct with
  | case1 => rfl
  | case2 a =>
    have ha := a.isLt
    simp only [base64Encode, base64DecodeQuanta, if_true, List.isEmpty_nil]
    rw [base64Index_char _ (by omega), base64Index_char _ (by omega)]
    simp only [Option.some.injEq, List.cons.injEq, and_true]
    exact byteOfNat_val a _ (by omega)
  | case3 a b =>
    have ha := a.isLt
    have hb := b.isLt
    simp only [base64Encode, base64DecodeQuanta, if_true, List.isEmpty_nil,
      base64Char_ne_pad _ (show b.val % 16 * 4 < 64 by omega), if_false]
    rw [base64Index_char _ (by omega), base64Index_char _ (by omega),
      base64Index_char _ (by omega)]
    simp only [Option.some.injEq, List.cons.injEq, and_true]
    exact ⟨byteOfNat_val a _ (by omega), byteOfNat_val b _ (by omega)⟩
  | case4 a b c rest ih =>
    have ha := a.isLt
    have hb := b.isLt
    have hc := c.isLt
    simp only [base64Encode, base64DecodeQuanta,
      base64Char_ne_pad _ (show c.val % 64 < 64 by omega), if_false]
    rw [base64Index_char _ (by omega), base64Index_char _ (by omega),
      base64Index_char _ (by omega), base64Index_char _ (by omega)]
    simp only [ih, Option.some.injEq, List.cons.injEq, and_true]
    exact ⟨byteOfNat_val a _ (by omega), byteOfNat_val b _ (by omega),
      byteOfNat_val c _ (by omega)⟩

/-- Base64 text decodes to the bytes it encodes. -/
theorem base64Decode_encode (l : List Byte) : base64Decode (base64Encode l) = some l := by
  rw [base64Decode, base64Encode_filter, base64DecodeQuanta_encode]

/-- A `[]byte` gets through `json.Marshal` and `json.Unmarshal` unchanged,
nil-ness included. -/
theorem unmarshalBytes_marshalBytes (arrayInto : ArrayIntoBytes) (old b : Slice Byte) :
    unmarshalBytes arrayInto old (marshalBytes b) = .ok b := by
  cases b with
  | nil => rfl
  | of l => simp [marshalBytes, unmarshalBytes, base64Decode_encode]

theorem keyMatches_table :
    keyMatches "context" "type" = false ∧ keyMatches "context" "context" = true ∧
      keyMatches "key" "type" = false ∧ keyMatches "key" "context" = false ∧
      keyMatches "key" "key" = true ∧ keyMatches "keyslots" "type" = false ∧
      keyMatches "keyslots" "context" = false ∧ keyMatches "keyslots" "key" = false ∧
      keyMatches "type" "type" = true := by
  decide

/-- Decoding the document of a token into an entry of `Luks2Dump.Tokens` gives
back its type, context and key; the `keyslots` entry of the document is
skipped. -/
theorem unmarshalToken_marshalToken (arrayInto : ArrayIntoBytes) (token : EscrowRecord) :
    unmarshalToken arrayInto (marshalToken token) =
      .ok { Typ := token.Typ, Context := token.context, Key := token.key } := by
  obtain ⟨h1, h2, h3, h4, h5, h6, h7, h8, h9⟩ := keyMatches_table
  simp [unmarshalToken, marshalToken, unmarshalTokenField, unmarshalString,
    unmarshalBytes_marshalBytes, h1, h2, h3, h4, h5, h6, h7, h8, h9]

/-- C7, as stated, fails: the tokens for key slot 0 and for key slot 1, with
the same context and key, are different records, and their documents decode to
the same entry of `Luks2Dump.Tokens`; the slot references do not come back. -/
theorem token_roundtrip_loses_keyslots :
    luksToken 0 (.of [1, 2]) (.of [3]) ≠ luksToken 1 (.of [1, 2]) (.of [3]) ∧
      ∀ arrayInto : ArrayIntoBytes,
        unmarshalToken arrayInto (marshalToken (luksToken 0 (.of [1, 2]) (.of [3]))) =
          unmarshalToken arrayInto (marshalToken (luksToken 1 (.of [1, 2]) (.of [3]))) ∧
        unmarshalToken arrayInto (marshalToken (luksToken 0 (.of [1, 2]) (.of [3]))) =
          .ok { Typ := "watchfulButler", Context := .of [1, 2], Key := .of [3] } := by
  refine ⟨by decide, fun arrayInto => ⟨?_, ?_⟩⟩
  · rw [unmarshalToken_marshalToken, unmarshalToken_marshalToken]
    rfl
  · rw [unmarshalToken_marshalToken]
    rfl

/-- C7, amended. For every escrow record, decoding the document
`createLuksToken` encodes for it, through the token entry of `Luks2Dump`, gives
the record's type, context bytes and public-key bytes unchanged; the entry has
no field for the slot references. -/
theorem token_roundtrip_type_context_key (arrayInto : ArrayIntoBytes) (token : EscrowRecord) :
    unmarshalToken arrayInto (marshalToken token) =
      .ok { Typ := token.Typ, Context := token.context, Key := token.key } :=
  unmarshalToken_marshalToken arrayInto token

/-! ## Theorems on `getExistingLuksData` -/

theorem scanTokens_eq_select (w : World) (tokens : List (Int × Token)) :
    scanTokens w tokens =
      match selectToken tokens with
      | none => ([], .ret (.error "no LUKS token found"))
      | some kv => loadToken w kv.2 := by
  induction tokens with
  | nil => rfl
  | cons kv rest ih =>
    obtain ⟨k, value⟩ := kv
    by_cases h : (value.Typ == "watchfulButler") = true
    · simp [scanTokens, selectToken, List.find?, h]
    · simp only [Bool.not_eq_true] at h
      simp only [scanTokens, selectToken, List.find?, h, Bool.false_eq_true, if_false]
      exact ih

theorem find?_eq_head?_filter {α : Type} (p : α → Bool) (l : List α) :
    l.find? p = (l.filter p).head? := by
  induction l with
  | nil => rfl
  | cons a rest ih =>
    cases h : p a
    · simp only [List.find?, List.filter, h]
      exact ih
    · simp only [List.find?, List.filter, h, List.head?_cons]

theorem perm_eq_of_length_le_one {α : Type} (l1 l2 : List α) (hp : l1.Perm l2)
    (h : l1.length ≤ 1) : l1 = l2 := by
  match l1, h, hp with
  | [], _, hp => exact hp.nil_eq
  | [a], _, hp => exact hp.singleton_eq
  | _ :: _ :: _, h, _ =>
    simp at h

theorem selectToken_perm (t1 t2 : List (Int × Token)) (hp : t1.Perm t2)
    (h : (t1.filter (fun kv => kv.2.Typ == "watchfulButler")).length ≤ 1) :
    selectToken t1 = selectToken t2 := by
  unfold selectToken
  rw [find?_eq_head?_filter, find?_eq_head?_filter,
    perm_eq_of_length_le_one _ _ (hp.filter _) h]

/-- C10, as stated, fails: a token map with two `watchfulButler` entries,
visited once in the order 0, 1 and once in the order 1, 0, makes
`getExistingLuksData` select different tokens, load different contexts and
return different keys. -/
theorem getExistingLuksData_depends_on_range_order :
    tokensAsc.Perm tokensDesc ∧
      selectToken tokensAsc ≠ selectToken tokensDesc ∧
      getExistingLuksData
          (toyWorld (.ok { Keyslots := [], Tokens := tokensAsc }) (.error "unused")) 0 =
        ([.contextLoad 0x80000004], .ret (.ok (0x80000004, { N := 33, E := 3 }))) ∧
      getExistingLuksData
          (toyWorld (.ok { Keyslots := [], Tokens := tokensDesc }) (.error "unused")) 0 =
        ([.contextLoad 0x80000005], .ret (.ok (0x80000005, { N := 35, E := 5 }))) := by
  refine ⟨by decide, by decide, rfl, rfl⟩

/-- C10, amended. The token `getExistingLuksData` selects is the first of type
`watchfulButler` in the iteration order of the token map. When the dump holds
at most one token of that type, the selected token and the whole result (the
context loaded, the key returned, the error) are the same for every iteration
order of the same token map. -/
theorem getExistingLuksData_deterministic_of_unique (w : World) (call : Nat)
    (d1 d2 : Luks2Dump) (hperm : d1.Tokens.Perm d2.Tokens)
    (huniq : (d1.Tokens.filter (fun kv => kv.2.Typ == "watchfulButler")).length ≤ 1) :
    selectToken d1.Tokens = selectToken d2.Tokens ∧
      getExistingLuksData { w with getLuksData := fun _ => .ok d1 } call =
        getExistingLuksData { w with getLuksData := fun _ => .ok d2 } call := by
  have hsel := selectToken_perm d1.Tokens d2.Tokens hperm huniq
  refine ⟨hsel, ?_⟩
  simp only [getExistingLuksData]
  rw [scanTokens_eq_select, scanTokens_eq_select, hsel]
  rfl

/-- C10, amended, at a concrete input: one `watchfulButler` token next to a
token of another type, visited in both orders. -/
theorem getExistingLuksData_deterministic_of_unique_witness :
    selectToken tokensMixed = selectToken tokensMixed.reverse ∧
      getExistingLuksData
          { toyWorld (.error "unused") (.error "unused") with
            getLuksData := fun _ => .ok { Keyslots := [], Tokens := tokensMixed } } 0 =
        getExistingLuksData
          { toyWorld (.error "unused") (.error "unused") with
            getLuksData := fun _ => .ok { Keyslots := [], Tokens := tokensMixed.reverse } } 0 :=
  getExistingLuksData_deterministic_of_unique (toyWorld (.error "unused") (.error "unused")) 0
    { Keyslots := [], Tokens := tokensMixed } { Keyslots := [], Tokens := tokensMixed.reverse }
    (by decide) (by decide)

/-! ## Runs of `getAndVerifyQuote` -/

/-- C8 at a failing input. The volume holds a `watchfulButler` token whose
context loads as handle `0x80000000` and whose key blob does not parse. The run
obtains that handle, drops it, creates the key `0x80000001`, and flushes only
the created handle: the loaded handle is obtained once and never flushed. -/
theorem getAndVerifyQuote_leaks_loaded_handle :
    getExistingLuksData (toyWorld (.ok dumpBadKey) (.ok dumpBadKey)) 0 =
        ([.contextLoad 0x80000000],
          .ret (.error
            "failed to parse public key: asn1: syntax error: truncated tag or length")) ∧
      getAndVerifyQuote (toyWorld (.ok dumpBadKey) (.ok dumpBadKey)) =
        ([.contextLoad 0x80000000, .log "Creating TPM key", .createPrimary 0x80000001,
          .stdout "Enter existing LUKS password: ", .luksAddKey 1,
          .tokenImport (luksToken 1 (.of [1]) (.of [161, 17])),
          .randRead, .generateQuote 0x80000001, .verifyQuote,
          .stdout "Quote verified successfully\n", .flushContext 0x80000001, .closeTPM],
          .ret ()) ∧
      obtained 0x80000000 (getAndVerifyQuote (toyWorld (.ok dumpBadKey) (.ok dumpBadKey))).1 = 1 ∧
      flushed 0x80000000 (getAndVerifyQuote (toyWorld (.ok dumpBadKey) (.ok dumpBadKey))).1 = 0 := by
  refine ⟨rfl, rfl, by decide, by decide⟩

/-- C9 at a failing input. The volume holds no token and all of its keyslots
0..31 are occupied: `writeLuksData` fails with the no-free-slot error, and the
run goes on to read a nonce, to call `generateQuote` and `verifyQuote`, and to
print "Quote verified successfully". -/
theorem getAndVerifyQuote_ignores_writeLuksData_error :
    writeLuksData (toyWorld (.ok dumpEmpty) (.ok dumpFull)) 1 0x80000001 toyKey =
        ([.stdout "Enter existing LUKS password: "],
          some "failed to find free LUKS slot: no free LUKS slot found") ∧
      getAndVerifyQuote (toyWorld (.ok dumpEmpty) (.ok dumpFull)) =
        ([.log "Creating TPM key", .createPrimary 0x80000001,
          .stdout "Enter existing LUKS password: ",
          .randRead, .generateQuote 0x80000001, .verifyQuote,
          .stdout "Quote verified successfully\n", .flushContext 0x80000001, .closeTPM],
          .ret ()) := by
  refine ⟨rfl, rfl⟩

end WatchfulButler
